import Mathlib

/-!
Shallow embedding of the `ImageVectorizer` class from `example.ipynb`
(repository `SNUDerek/kerasdemo_image_similarity`).

Modelling conventions:
* Python `None`-able return values become `Option`; a raised Python
  exception becomes the `Except.error` constructor with a `PyExn` tag.
* numpy float values are idealised as real numbers (`ℝ`); an image
  vector is a `List ℝ` and a pixel array is likewise a `List ℝ`.
* The external collaborators (the HTTP transport `requests.get`, the
  PIL decoder behind `keras.preprocessing.image.load_img`, and the
  Keras model) are abstract functions gathered in an `Env` record; the
  repository code is translated on top of them.
* Python list indexing `l[i]` with an `int` index is modelled by
  `pyGet`, including the negative-index wrap-around and the
  `IndexError` exception.
-/

/-- Exceptions that the translated code can raise. `keyError` models
`r.headers[...]` on a missing key, `decodeError` models
`image.load_img` failing on bytes that are not an image (PIL raises),
`indexError` models Python list indexing out of range, and `nameError`
models referencing an unbound name. -/
inductive PyExn where
  | keyError
  | decodeError
  | indexError
  | nameError
  deriving DecidableEq, Repr

/-- Python list indexing `l[i]` for an `int` index: nonnegative indices
are positional, negative indices count from the end, anything out of
range raises `IndexError`. -/
def pyGet {α : Type} (l : List α) (i : ℤ) : Except PyExn α :=
  if 0 ≤ i then
    if h : i.toNat < l.length then .ok (l.get ⟨i.toNat, h⟩) else .error .indexError
  else
    let j : ℤ := (l.length : ℤ) + i
    if h : 0 ≤ j ∧ j.toNat < l.length then .ok (l.get ⟨j.toNat, h.2⟩)
    else .error .indexError

/-- The response delivered by the transport for one URL: the HTTP
status code, the optional `content-length` header, and the streamed
body bytes (the concatenation of the `iter_content` chunks). -/
structure Response where
  status : ℕ
  contentLength : Option ℕ
  body : List ℕ

/-- The external world the notebook code runs against: `net` is the
behaviour of `requests.get` per URL, and `decode` is the behaviour of
`image.load_img` followed by `image.img_to_array` on the buffered
bytes (`none` means PIL raises because the bytes are not an image;
`some arr` is the decoded 224×224 pixel array). -/
structure Env where
  net : String → Response
  decode : List ℕ → Option (List ℝ)

/-- Outcome of one `download_image` call, together with whether the
`tempfile.SpooledTemporaryFile` buffer was explicitly closed before
the call finished. `result = .ok none` is the Python `return None`
path, `.ok (some a)` a decoded pixel array, `.error e` a propagated
exception. -/
structure DlTrace where
  result : Except PyExn (Option (List ℝ))
  bufferClosed : Bool

/-- Translation of `ImageVectorizer.download_image`:

* a `SpooledTemporaryFile` buffer is opened unconditionally;
* if `r.status_code == 200`: reading the content-length header raises
  `KeyError` when the header is absent; otherwise the chunks are
  written to the buffer, `image.load_img` decodes them (raising when
  the bytes are not an image, in which case `buffer.close()` is never
  reached), and only after a successful decode is the buffer closed;
* on any other status code the function falls through and returns the
  initial `img_arr = None`, never closing the buffer. -/
def download_image (env : Env) (image_url : String) : DlTrace :=
  let r := env.net image_url
  if r.status = 200 then
    match r.contentLength with
    | none => ⟨.error .keyError, false⟩
    | some _ =>
      match env.decode r.body with
      | none => ⟨.error .decodeError, false⟩
      | some img_arr => ⟨.ok (some img_arr), true⟩
  else ⟨.ok none, false⟩

/-- The mutable state of an `ImageVectorizer` instance: the injected
model (as the behaviour of `model.predict` on a single-item batch,
returning the batch of output rows) and preprocessing function, plus
the three stored lists. -/
structure VecState where
  model : List ℝ → List (List ℝ)
  preprocess : List ℝ → List ℝ
  img_links : List String
  img_vectors : List (List ℝ)
  img_titles : List String

/-- The defaults the constructor falls back to: the pretrained
`keras.applications.vgg16.VGG16` network and its companion
`preprocess_input`, both external black boxes. -/
structure Keras where
  vgg16 : List ℝ → List (List ℝ)
  vgg16_preprocess : List ℝ → List ℝ

/-- Translation of `ImageVectorizer.__init__`. The source reads

  `if preprocess is not None: self.preprocess=preprocess_fn`

and the name `preprocess_fn` is bound nowhere in the notebook, so
supplying a preprocessing function raises `NameError` at construction
time; omitting it installs the VGG16 defaults. -/
def ImageVectorizer.init (K : Keras) (model : Option (List ℝ → List (List ℝ)))
    (preprocess : Option (List ℝ → List ℝ)) : Except PyExn VecState :=
  let m := match model with
    | some m => m
    | none => K.vgg16
  match preprocess with
  | some _ => .error .nameError
  | none =>
    .ok { model := m, preprocess := K.vgg16_preprocess,
          img_links := [], img_vectors := [], img_titles := [] }

/-- Translation of `ImageVectorizer.vectorize`: download, and if an
array came back, preprocess it and take row `0` of `model.predict`
(`preds[0]` raises `IndexError` on an empty batch output). Exceptions
from `download_image` propagate. -/
def vectorize (env : Env) (s : VecState) (image_url : String) :
    Except PyExn (Option (List ℝ)) :=
  match (download_image env image_url).result with
  | .error e => .error e
  | .ok none => .ok none
  | .ok (some img_arr) =>
    match s.model (s.preprocess img_arr) with
    | [] => .error .indexError
    | p :: _ => .ok (some p)

/-- Decidable test for the claims: does `vectorize` succeed on this
URL (return an array rather than `None` or an exception)? -/
def vectorize_ok (env : Env) (s : VecState) (url : String) : Bool :=
  match vectorize env s url with
  | .ok (some _) => true
  | _ => false

/-- The `for url in image_url_list` loop of `vectorize_links`,
accumulating `goods` and `vects` in step; a `None` from `vectorize` is
skipped (only a debug print happens), an exception propagates. -/
def vlLoop (env : Env) (s : VecState) :
    List String → Except PyExn (List String × List (List ℝ))
  | [] => .ok ([], [])
  | url :: rest =>
    match vectorize env s url with
    | .error e => .error e
    | .ok none => vlLoop env s rest
    | .ok (some v) =>
      match vlLoop env s rest with
      | .error e => .error e
      | .ok (goods, vects) => .ok (url :: goods, v :: vects)

/-- Translation of `ImageVectorizer.vectorize_links`: reset the three
stored lists, store the *whole* provided title list (it is not
filtered by success), run the loop, then store the surviving links and
vectors and return them. The `time.sleep(0.1)` throttle and the debug
prints have no bearing on the state and are dropped. -/
def vectorize_links (env : Env) (s : VecState) (image_url_list : List String)
    (image_title_list : Option (List String)) :
    Except PyExn (VecState × List String × List (List ℝ)) :=
  let s1 : VecState :=
    { s with img_links := [], img_vectors := [],
             img_titles := match image_title_list with
               | some ts => ts
               | none => [] }
  match vlLoop env s1 image_url_list with
  | .error e => .error e
  | .ok (goods, vects) =>
    .ok ({ s1 with img_links := goods, img_vectors := vects }, goods, vects)

/-- Dot product of two vectors, elementwise over the common prefix
(numpy raises on shape mismatch; the collection invariant keeps all
dimensions equal, so the common prefix is the whole vector). -/
def dotL (u v : List ℝ) : ℝ := (List.zipWith (fun a b => a * b) u v).sum

/-- Euclidean norm, as used inside `scipy.spatial.distance.cosine`. -/
noncomputable def normL (u : List ℝ) : ℝ := Real.sqrt (dotL u u)

/-- `scipy.spatial.distance.cosine`: `1 - u·v/(‖u‖·‖v‖)`. A zero
vector makes the quotient `0/0`, which the embedding renders as `0`
(scipy itself emits a NaN there); no claim in this development touches
a zero-magnitude vector. -/
noncomputable def scipy_cosine (u v : List ℝ) : ℝ :=
  1 - dotL u v / (normL u * normL v)

/-- Translation of `ImageVectorizer._cosine_similarity`:
`1. - scipy.spatial.distance.cosine(vector1, vector2)`. -/
noncomputable def cosine_similarity (vector1 vector2 : List ℝ) : ℝ :=
  1 - scipy_cosine vector1 vector2

/-- The `sims_vct` list built by the loop in `image_similarity`: for
each position `i` of the stored vectors, the cosine similarity to the
reference vector, except that position `idx` itself is forced to
`0.0` without being computed. The comparison `i != idx` is between
Python ints, hence the cast of the position to `ℤ`. -/
noncomputable def sims_vct (vectors : List (List ℝ)) (test_vct : List ℝ)
    (idx : ℤ) : List ℝ :=
  vectors.enum.map
    (fun p => if (p.1 : ℤ) ≠ idx then cosine_similarity test_vct p.2 else 0)

/-- Index and value of the first maximum of a list (the contract of
`np.argmax`): a head that ties with or exceeds the best of the tail
wins, so the earliest maximal position is reported. -/
def argmaxPair {α : Type} [LinearOrder α] : List α → Option (ℕ × α)
  | [] => none
  | x :: xs =>
    match argmaxPair xs with
    | none => some (0, x)
    | some (j, m) => if x < m then some (j + 1, m) else some (0, x)

/-- `np.argmax` on a list: the index of the first occurrence of the
maximum (`np.argmax` raises on an empty input; every call site below
is guarded by a successful index access, so the `0` default for `[]`
is unreachable). -/
def npArgmax {α : Type} [LinearOrder α] (l : List α) : ℕ :=
  match argmaxPair l with
  | none => 0
  | some (j, _) => j

/-- The best-match index `image_similarity` computes for reference
position `r`: `np.argmax` of the `sims_vct` scores against the stored
vector at `r`. -/
noncomputable def best_idx_of (vectors : List (List ℝ)) (r : ℕ) : ℕ :=
  npArgmax (sims_vct vectors (vectors.getD r []) (r : ℤ))

/-- Outcome of `view_image`: the early return after printing
`"index out of bounds!"`, or the display of the image at the resolved
index (the function itself returns `None` either way; the constructor
records which observable behaviour happened). -/
inductive ViewResult where
  | oobMsg
  | displayed (url : String)
  deriving DecidableEq, Repr

/-- Translation of `ImageVectorizer.view_image`: guard is
`idx > len(self.img_vectors)-1` only, then `self.img_links[idx]` is
displayed — a negative `idx` passes the guard and resolves with
Python wrap-around semantics via `pyGet`. -/
def view_image (s : VecState) (idx : ℤ) : Except PyExn ViewResult :=
  if (s.img_vectors.length : ℤ) - 1 < idx then .ok .oobMsg
  else do
    let u ← pyGet s.img_links idx
    .ok (.displayed u)

/-- Outcome of `image_similarity`: the `"please run vectorize_links()
first!"` early return, the `"index out of bounds!"` early return, or
the normal path displaying the reference and best-match images and
returning the best-match title when one exists (`none` renders the
bare Python `return`). -/
inductive SimResult where
  | emptyMsg
  | oobMsg
  | found (shown : String × String) (ret : Option String)
  deriving DecidableEq, Repr

/-- The value a caller of `image_similarity` receives: the title on
the normal path when present, `None` otherwise (both early-return
branches also return `None`). -/
def sim_return : SimResult → Option String
  | .found _ t => t
  | _ => none

/-- Translation of `ImageVectorizer.image_similarity`: the first guard
is literally `len(self.img_vectors) < 0` as in the source; the second
is `idx > len(self.img_vectors)-1`; then the reference link and vector
are fetched, the score list is built with the reference position
forced to `0.0`, `np.argmax` picks the best index, both images are
displayed, and the title at the best index is returned when
`len(self.img_titles) > best_idx`. -/
noncomputable def image_similarity (s : VecState) (idx : ℤ) :
    Except PyExn SimResult :=
  if (s.img_vectors.length : ℤ) < 0 then .ok .emptyMsg
  else if (s.img_vectors.length : ℤ) - 1 < idx then .ok .oobMsg
  else do
    let test_img ← pyGet s.img_links idx
    let test_vct ← pyGet s.img_vectors idx
    let best := npArgmax (sims_vct s.img_vectors test_vct idx)
    let t_url ← pyGet s.img_links (best : ℤ)
    .ok (.found (test_img, t_url)
      (if h : best < s.img_titles.length then some (s.img_titles.get ⟨best, h⟩)
       else none))

theorem argmaxPair_isSome {α : Type} [LinearOrder α] (x : α) (xs : List α) :
    ∃ j m, argmaxPair (x :: xs) = some (j, m) := by
  simp only [argmaxPair]
  cases argmaxPair xs with
  | none => exact ⟨0, x, rfl⟩
  | some p =>
    obtain ⟨j, m⟩ := p
    by_cases h : x < m
    · exact ⟨j + 1, m, by simp [h]⟩
    · exact ⟨0, x, by simp [h]⟩

theorem argmaxPair_spec {α : Type} [LinearOrder α] :
    ∀ (l : List α) (j : ℕ) (m : α), argmaxPair l = some (j, m) →
      ∃ hj : j < l.length, l.get ⟨j, hj⟩ = m ∧ ∀ y ∈ l, y ≤ m := by
  intro l
  induction l with
  | nil => intro j m h; simp [argmaxPair] at h
  | cons x xs ih =>
    intro j m h
    simp only [argmaxPair] at h
    cases hx : argmaxPair xs with
    | none =>
      rw [hx] at h
      have hxs : xs = [] := by
        cases xs with
        | nil => rfl
        | cons y ys =>
          obtain ⟨j2, m2, he⟩ := argmaxPair_isSome y ys
          rw [he] at hx
          cases hx
      subst hxs
      cases h
      refine ⟨by simp, rfl, ?_⟩
      intro y hy
      simp at hy
      simp [hy]
    | some p =>
      obtain ⟨j1, m1⟩ := p
      rw [hx] at h
      obtain ⟨hj1, hget1, hmax1⟩ := ih j1 m1 hx
      by_cases hlt : x < m1
      · simp only [if_pos hlt] at h
        cases h
        refine ⟨by simpa using Nat.succ_lt_succ hj1, by simpa using hget1, ?_⟩
        intro y hy
        rcases List.mem_cons.mp hy with rfl | hy
        · exact le_of_lt hlt
        · exact hmax1 y hy
      · simp only [if_neg hlt] at h
        cases h
        refine ⟨by simp, rfl, ?_⟩
        intro y hy
        rcases List.mem_cons.mp hy with rfl | hy
        · exact le_rfl
        · exact le_trans (hmax1 y hy) (not_lt.mp hlt)

theorem npArgmax_spec {α : Type} [LinearOrder α] (l : List α) (h : l ≠ []) :
    ∃ hj : npArgmax l < l.length, ∀ y ∈ l, y ≤ l.get ⟨npArgmax l, hj⟩ := by
  cases l with
  | nil => exact absurd rfl h
  | cons x xs =>
    obtain ⟨j, m, he⟩ := argmaxPair_isSome x xs
    obtain ⟨hj, hget, hmax⟩ := argmaxPair_spec (x :: xs) j m he
    have hn : npArgmax (x :: xs) = j := by simp [npArgmax, he]
    rw [hn]
    exact ⟨hj, by rw [hget]; exact hmax⟩

theorem sims_vct_length (vectors : List (List ℝ)) (t : List ℝ) (idx : ℤ) :
    (sims_vct vectors t idx).length = vectors.length := by
  simp [sims_vct]

theorem sims_vct_get (vectors : List (List ℝ)) (t : List ℝ) (idx : ℤ)
    (i : ℕ) (h : i < vectors.length)
    (h2 : i < (sims_vct vectors t idx).length) :
    (sims_vct vectors t idx).get ⟨i, h2⟩ =
      if (i : ℤ) ≠ idx then cosine_similarity t (vectors.get ⟨i, h⟩) else 0 := by
  simp [sims_vct, List.get_eq_getElem, List.getElem_enum]

theorem pyGet_nat {α : Type} (l : List α) (i : ℕ) (h : i < l.length) :
    pyGet l (i : ℤ) = .ok (l.get ⟨i, h⟩) := by
  simp [pyGet, h]

theorem pyGet_neg {α : Type} (l : List α) (i : ℤ) (hneg : i < 0)
    (hge : -(l.length : ℤ) ≤ i) :
    ∃ h : ((l.length : ℤ) + i).toNat < l.length,
      pyGet l i = .ok (l.get ⟨((l.length : ℤ) + i).toNat, h⟩) := by
  have hlt : ((l.length : ℤ) + i).toNat < l.length := by omega
  refine ⟨hlt, ?_⟩
  simp only [pyGet]
  rw [if_neg (by omega : ¬ (0:ℤ) ≤ i)]
  rw [dif_pos ⟨by omega, hlt⟩]

theorem pyGet_oob {α : Type} (l : List α) (i : ℤ)
    (h : i < -(l.length : ℤ) ∨ (l.length : ℤ) ≤ i) :
    pyGet l i = .error .indexError := by
  rcases h with h | h
  · simp only [pyGet]
    rw [if_neg (by omega : ¬ (0:ℤ) ≤ i)]
    rw [dif_neg (by omega)]
  · simp only [pyGet]
    by_cases h0 : (0:ℤ) ≤ i
    · rw [if_pos h0, dif_neg (by omega)]
    · rw [if_neg h0, dif_neg (by omega)]

theorem vlLoop_spec (env : Env) (s : VecState) :
    ∀ (urls goods : List String) (vects : List (List ℝ)),
      vlLoop env s urls = .ok (goods, vects) →
      goods = urls.filter (vectorize_ok env s) ∧
      vects.length = goods.length ∧
      ∀ (i : ℕ) (hg : i < goods.length) (hv : i < vects.length),
        vectorize env s (goods.get ⟨i, hg⟩) = .ok (some (vects.get ⟨i, hv⟩)) := by
  intro urls
  induction urls with
  | nil =>
    intro goods vects h
    simp only [vlLoop] at h
    cases h
    exact ⟨rfl, rfl, by intro i hg hv; simp at hg⟩
  | cons url rest ih =>
    intro goods vects h
    simp only [vlLoop] at h
    cases hvec : vectorize env s url with
    | error e => rw [hvec] at h; cases h
    | ok o =>
      cases o with
      | none =>
        rw [hvec] at h
        obtain ⟨hfil, hlen, hpair⟩ := ih goods vects h
        have hok : vectorize_ok env s url = false := by simp [vectorize_ok, hvec]
        exact ⟨by rw [List.filter_cons_of_neg (by simp [hok]), hfil], hlen, hpair⟩
      | some v =>
        rw [hvec] at h
        cases hrest : vlLoop env s rest with
        | error e => rw [hrest] at h; cases h
        | ok p =>
          obtain ⟨gs, vs⟩ := p
          rw [hrest] at h
          cases h
          obtain ⟨hfil, hlen, hpair⟩ := ih gs vs hrest
          have hok : vectorize_ok env s url = true := by simp [vectorize_ok, hvec]
          refine ⟨by rw [List.filter_cons_of_pos (by simp [hok]), hfil], by simpa using hlen, ?_⟩
          intro i hg hv
          cases i with
          | zero => simpa using hvec
          | succ i => exact hpair i (by simpa using hg) (by simpa using hv)

theorem except_bind_ok {ε α β : Type} (a : α) (f : α → Except ε β) :
    (Except.ok (ε := ε) a >>= f) = f a := rfl

theorem image_similarity_found (s : VecState) (idx : ℕ)
    (hlen : s.img_links.length = s.img_vectors.length)
    (hidx : idx < s.img_vectors.length) :
    best_idx_of s.img_vectors idx < s.img_links.length ∧
    image_similarity s (idx : ℤ) =
      .ok (.found (s.img_links.getD idx "",
                   s.img_links.getD (best_idx_of s.img_vectors idx) "")
        (if best_idx_of s.img_vectors idx < s.img_titles.length
         then some (s.img_titles.getD (best_idx_of s.img_vectors idx) "")
         else none)) := by
  have hgetD : s.img_vectors.getD idx [] = s.img_vectors.get ⟨idx, hidx⟩ := by
    rw [List.getD_eq_getElem _ _ hidx]
    simp
  have hne : sims_vct s.img_vectors (s.img_vectors.get ⟨idx, hidx⟩) (idx : ℤ) ≠ [] := by
    intro hnil
    have := sims_vct_length s.img_vectors (s.img_vectors.get ⟨idx, hidx⟩) (idx : ℤ)
    rw [hnil] at this
    simp at this
    omega
  obtain ⟨hj, -⟩ := npArgmax_spec _ hne
  rw [sims_vct_length] at hj
  have hbest : best_idx_of s.img_vectors idx =
      npArgmax (sims_vct s.img_vectors (s.img_vectors.get ⟨idx, hidx⟩) (idx : ℤ)) := by
    rw [best_idx_of, hgetD]
  have hb : best_idx_of s.img_vectors idx < s.img_links.length := by
    rw [hbest, hlen]; exact hj
  refine ⟨hb, ?_⟩
  rw [image_similarity]
  rw [if_neg (by omega : ¬ ((s.img_vectors.length : ℤ) < 0))]
  rw [if_neg (by omega : ¬ ((s.img_vectors.length : ℤ) - 1 < (idx : ℤ)))]
  rw [hbest]
  rw [pyGet_nat s.img_links idx (by omega), except_bind_ok]
  rw [pyGet_nat s.img_vectors idx hidx, except_bind_ok]
  dsimp only []
  rw [pyGet_nat s.img_links _ (hbest ▸ hb), except_bind_ok]
  by_cases ht : npArgmax (sims_vct s.img_vectors (s.img_vectors.get ⟨idx, hidx⟩) (idx : ℤ)) <
      s.img_titles.length
  · rw [dif_pos ht, if_pos ht]
    rw [List.getD_eq_getElem s.img_links "" (by omega : idx < s.img_links.length)]
    rw [List.getD_eq_getElem s.img_links "" (hbest ▸ hb)]
    rw [List.getD_eq_getElem s.img_titles "" ht]
    simp
  · rw [dif_neg ht, if_neg ht]
    rw [List.getD_eq_getElem s.img_links "" (by omega : idx < s.img_links.length)]
    rw [List.getD_eq_getElem s.img_links "" (hbest ▸ hb)]
    simp

theorem except_bind_error {ε α β : Type} (e : ε) (f : α → Except ε β) :
    (Except.error (α := α) e >>= f) = .error e := rfl

/-- A stub model used in concrete runs: every input maps to the
single-row batch `[[1]]`. -/
def model0 : List ℝ → List (List ℝ) := fun _ => [[1]]

/-- A healthy transport response: status 200, a content-length header,
and a decodable body. -/
def respOK : Response := ⟨200, some 3, [1, 2, 3]⟩

/-- A failing transport response: status 404. -/
def respFail : Response := ⟨404, none, []⟩

/-- A malformed success response: status 200 but no content-length
header. -/
def respNoCL : Response := ⟨200, none, []⟩

/-- Demo world: the URLs `"bad"`, `"bad1"`, `"bad3"` get a 404,
everything else succeeds and decodes to the pixel array `[1]`. -/
def envDemo : Env :=
  ⟨fun u => if u ∈ (["bad", "bad1", "bad3"] : List String) then respFail else respOK,
   fun _ => some [1]⟩

/-- A world whose only response is a 200 without content-length. -/
def envNoCL : Env := ⟨fun _ => respNoCL, fun _ => some [1]⟩

/-- A world that always answers 200 with a body PIL cannot decode. -/
def envNoDecode : Env := ⟨fun _ => respOK, fun _ => none⟩

/-- A freshly constructed vectorizer (stub model, identity
preprocessing, all three lists empty). -/
def s0 : VecState := ⟨model0, id, [], [], []⟩

/-- A vectorizer holding exactly one record. -/
def sView : VecState := ⟨model0, id, ["u"], [[1]], []⟩

/-- Claim C3 (code_bug): on an empty collection `image_similarity`
was claimed to take the `"please run vectorize_links() first!"`
branch; because the guard in the source is `len(self.img_vectors) < 0`
— never true — the call instead takes the `"index out of bounds!"`
branch for index `0`, and raises `IndexError` for index `-1`. -/
theorem C3_empty_collection_bug :
    image_similarity s0 0 = .ok .oobMsg ∧
    image_similarity s0 (-1) = .error .indexError := by
  exact ⟨rfl, rfl⟩

/-- Claim C6 (code_bug): supplying a preprocessing function at
construction raises `NameError` (the source assigns the unbound name
`preprocess_fn`) instead of installing the supplied function; omitting
both optional arguments installs the VGG16 default pair as claimed. -/
theorem C6_supplied_preprocess_raises :
    (∀ (K : Keras) (model : Option (List ℝ → List (List ℝ)))
       (p : List ℝ → List ℝ),
        ImageVectorizer.init K model (some p) = .error .nameError) ∧
    (∀ K : Keras, ImageVectorizer.init K none none =
        .ok ⟨K.vgg16, K.vgg16_preprocess, [], [], []⟩) := by
  exact ⟨fun K model p => rfl, fun K => rfl⟩

/-- Claim C4, counterexample: `view_image` on a one-element collection
with index `-1` does not take the `"index out of bounds!"` branch; it
displays the last stored image, refuting the claim that a negative
index fails with `IndexOutOfRange` and returns no result. -/
theorem C4_counterexample :
    view_image sView (-1) = .ok (.displayed "u") ∧
    ViewResult.displayed "u" ≠ ViewResult.oobMsg := by
  exact ⟨rfl, by decide⟩

/-- Claim C4, amended: indices at or beyond the collection size take
the `"index out of bounds!"` branch in both `view_image` and
`image_similarity`; a negative index is not rejected — `view_image`
resolves it through Python indexing (wrap-around for `-size ≤ idx`,
`IndexError` below that). -/
theorem C4_index_handling (s : VecState) (idx : ℤ) :
    ((s.img_vectors.length : ℤ) ≤ idx →
      view_image s idx = .ok .oobMsg ∧ image_similarity s idx = .ok .oobMsg) ∧
    (idx < 0 →
      view_image s idx = (pyGet s.img_links idx).map ViewResult.displayed) := by
  constructor
  · intro hge
    constructor
    · rw [view_image, if_pos (by omega)]
    · rw [image_similarity, if_neg (by omega : ¬ ((s.img_vectors.length : ℤ) < 0)),
        if_pos (by omega)]
  · intro hneg
    rw [view_image, if_neg (by omega)]
    cases h : pyGet s.img_links idx with
    | error e => rw [except_bind_error]; rfl
    | ok u => rw [except_bind_ok]; rfl

/-- Claim C4, witness for the amended theorem: at the one-element
collection, index `5` takes the out-of-bounds branch in both
operations and index `-1` resolves by wrap-around to the only stored
link. -/
theorem C4_witness :
    (view_image sView 5 = .ok .oobMsg ∧ image_similarity sView 5 = .ok .oobMsg) ∧
    view_image sView (-1) = .ok (.displayed "u") := by
  refine ⟨(C4_index_handling sView 5).1 (by decide), ?_⟩
  rw [(C4_index_handling sView (-1)).2 (by decide)]
  rfl

/-- Claim C5, counterexample: a 200 response without a content-length
header makes `download_image` raise `KeyError`, and a 200 response
whose bytes do not decode as an image makes it raise the PIL decode
exception; neither is the claimed no-result return. -/
theorem C5_counterexample :
    (download_image envNoCL "u").result = .error .keyError ∧
    (download_image envNoDecode "u").result = .error .decodeError ∧
    (Except.error (α := Option (List ℝ)) PyExn.keyError ≠ .ok none) := by
  exact ⟨rfl, rfl, fun h => nomatch h⟩

/-- Claim C5, amended: `download_image` returns `None` (no result)
only for a non-success status code; a missing content-length header on
a 200 response raises `KeyError`, and an undecodable 200 body raises
the decode exception — both propagate to the caller. -/
theorem C5_fetch_outcomes (env : Env) (url : String) :
    ((env.net url).status ≠ 200 → (download_image env url).result = .ok none) ∧
    ((env.net url).status = 200 → (env.net url).contentLength = none →
      (download_image env url).result = .error .keyError) ∧
    ((env.net url).status = 200 → ∀ n, (env.net url).contentLength = some n →
      env.decode (env.net url).body = none →
      (download_image env url).result = .error .decodeError) := by
  refine ⟨fun hs => ?_, fun hs hcl => ?_, fun hs n hcl hd => ?_⟩
  · rw [download_image]
    rw [if_neg hs]
  · rw [download_image]
    rw [if_pos hs, hcl]
  · rw [download_image]
    rw [if_pos hs, hcl, hd]

/-- Claim C5, witness for the amended theorem: the three branches at
concrete responses — a 404 yields `.ok none`, a 200 without
content-length yields `KeyError`, an undecodable 200 body yields the
decode exception. -/
theorem C5_witness :
    (download_image envDemo "bad").result = .ok none ∧
    (download_image envNoCL "u").result = .error .keyError ∧
    (download_image envNoDecode "u").result = .error .decodeError := by
  refine ⟨(C5_fetch_outcomes envDemo "bad").1 (by decide), ?_, ?_⟩
  · exact (C5_fetch_outcomes envNoCL "u").2.1 rfl rfl
  · exact (C5_fetch_outcomes envNoDecode "u").2.2 rfl 3 rfl rfl

/-- Claim C8, counterexample: on the non-success path (status 404) the
spooled buffer is opened but never closed before `download_image`
returns, and likewise on the decode-failure path; the claim that every
path closes the buffer is false. -/
theorem C8_counterexample :
    (download_image envDemo "bad").bufferClosed = false ∧
    (download_image envNoDecode "u").bufferClosed = false := by
  exact ⟨rfl, rfl⟩

/-- Claim C8, amended: the buffer is explicitly closed exactly on the
fully successful path — status 200, content-length present, body
decodes; on a non-success status, a missing header, or a decode
exception the close is never reached. -/
theorem C8_buffer_close (env : Env) (url : String) :
    (download_image env url).bufferClosed = true ↔
      ((env.net url).status = 200 ∧
       (∃ n, (env.net url).contentLength = some n) ∧
       (∃ a, env.decode (env.net url).body = some a)) := by
  rw [download_image]
  by_cases hs : (env.net url).status = 200
  · rw [if_pos hs]
    cases hcl : (env.net url).contentLength with
    | none => simp [hcl, hs]
    | some n =>
      cases hd : env.decode (env.net url).body with
      | none => simp [hcl, hd, hs]
      | some a => simp [hcl, hd, hs]
  · rw [if_neg hs]
    simp [hs]

theorem vectorize_reset_eq (env : Env) (s : VecState) (links : List String)
    (vv : List (List ℝ)) (tt : List String) (u : String) :
    vectorize env { s with img_links := links, img_vectors := vv, img_titles := tt } u =
      vectorize env s u := rfl

theorem vectorize_ok_reset_eq (env : Env) (s : VecState) (links : List String)
    (vv : List (List ℝ)) (tt : List String) :
    vectorize_ok env { s with img_links := links, img_vectors := vv, img_titles := tt } =
      vectorize_ok env s := rfl

theorem vectorize_links_ok (env : Env) (s : VecState) (urls : List String)
    (titles : Option (List String)) (st : VecState) (goods : List String)
    (vects : List (List ℝ))
    (h : vectorize_links env s urls titles = .ok (st, goods, vects)) :
    st.img_links = goods ∧ st.img_vectors = vects ∧
    goods = urls.filter (vectorize_ok env s) ∧
    vects.length = goods.length ∧
    (∀ (i : ℕ) (hg : i < goods.length) (hv : i < vects.length),
      vectorize env s (goods.get ⟨i, hg⟩) = .ok (some (vects.get ⟨i, hv⟩))) ∧
    st.img_titles = (match titles with | some ts => ts | none => []) := by
  cases titles with
  | some ts =>
    rw [vectorize_links] at h
    cases hloop : vlLoop env
        { s with img_links := [], img_vectors := [], img_titles := ts } urls with
    | error e => rw [hloop] at h; cases h
    | ok p =>
      obtain ⟨gs, vs⟩ := p
      rw [hloop] at h
      cases h
      obtain ⟨hfil, hlen, hpair⟩ := vlLoop_spec env _ urls goods vects hloop
      rw [vectorize_ok_reset_eq] at hfil
      exact ⟨rfl, rfl, hfil, hlen, hpair, rfl⟩
  | none =>
    rw [vectorize_links] at h
    cases hloop : vlLoop env
        { s with img_links := [], img_vectors := [], img_titles := [] } urls with
    | error e => rw [hloop] at h; cases h
    | ok p =>
      obtain ⟨gs, vs⟩ := p
      rw [hloop] at h
      cases h
      obtain ⟨hfil, hlen, hpair⟩ := vlLoop_spec env _ urls goods vects hloop
      rw [vectorize_ok_reset_eq] at hfil
      exact ⟨rfl, rfl, hfil, hlen, hpair, rfl⟩

/-- Claim C1, amended: after a rebuild over `urls` with a parallel
title list, the stored locations and vectors have equal length — the
number `K` of successes, i.e. the length of the success-filtered input
— and correspond pairwise to the same source image; but the stored
titles are the *whole* input title list (length `N`, unfiltered), so
the title sequence is not parallel to the other two when any location
fails. -/
theorem C1_rebuild_parallel (env : Env) (s : VecState) (urls titles : List String)
    (st : VecState) (goods : List String) (vects : List (List ℝ))
    (h : vectorize_links env s urls (some titles) = .ok (st, goods, vects)) :
    st.img_titles = titles ∧
    st.img_links.length = (urls.filter (vectorize_ok env s)).length ∧
    st.img_vectors.length = st.img_links.length ∧
    ∀ (i : ℕ) (hl : i < st.img_links.length) (hv : i < st.img_vectors.length),
      vectorize env s (st.img_links.get ⟨i, hl⟩) =
        .ok (some (st.img_vectors.get ⟨i, hv⟩)) := by
  obtain ⟨hsl, hsv, hfil, hlen, hpair, hti⟩ :=
    vectorize_links_ok env s urls (some titles) st goods vects h
  subst hsl hsv
  exact ⟨hti, by rw [hfil], hlen, hpair⟩

/-- Claim C9: the successes of a rebuild keep the relative order of
their source locations — the stored link list is exactly the input
list filtered by vectorization success, hence a sublist of the input
in the original order. -/
theorem C9_order_preserved (env : Env) (s : VecState) (urls : List String)
    (titles : Option (List String)) (st : VecState) (goods : List String)
    (vects : List (List ℝ))
    (h : vectorize_links env s urls titles = .ok (st, goods, vects)) :
    st.img_links = goods ∧
    goods = urls.filter (vectorize_ok env s) ∧
    List.Sublist goods urls := by
  obtain ⟨hsl, -, hfil, -, -, -⟩ :=
    vectorize_links_ok env s urls titles st goods vects h
  exact ⟨hsl, hfil, hfil ▸ List.filter_sublist urls⟩

/-- Claim C10: a fresh construction stores equally many (namely zero)
locations and vectors, and after any successful rebuild the stored
locations and vectors have equal length with every stored vector the
output of a successful `vectorize` of the location at the same index
(no `None` is ever stored). -/
theorem C10_stored_vectors_valid :
    (∀ (K : Keras) (model : Option (List ℝ → List (List ℝ)))
       (preprocess : Option (List ℝ → List ℝ)) (s : VecState),
        ImageVectorizer.init K model preprocess = .ok s →
        s.img_links.length = s.img_vectors.length) ∧
    (∀ (env : Env) (s : VecState) (urls : List String)
       (titles : Option (List String)) (st : VecState) (goods : List String)
       (vects : List (List ℝ)),
        vectorize_links env s urls titles = .ok (st, goods, vects) →
        st.img_links.length = st.img_vectors.length ∧
        ∀ (i : ℕ) (hl : i < st.img_links.length) (hv : i < st.img_vectors.length),
          vectorize env s (st.img_links.get ⟨i, hl⟩) =
            .ok (some (st.img_vectors.get ⟨i, hv⟩))) := by
  constructor
  · intro K model preprocess s h
    cases preprocess with
    | some p => cases h
    | none => cases h; rfl
  · intro env s urls titles st goods vects h
    obtain ⟨hsl, hsv, -, hlen, hpair, -⟩ :=
      vectorize_links_ok env s urls titles st goods vects h
    subst hsl hsv
    exact ⟨hlen.symm, hpair⟩

/-- Claim C1, counterexample: a rebuild over two locations of which
exactly one succeeds, with a parallel two-title list, stores one
location, one vector, but two titles — the three sequences do not all
have length `K = 1`. -/
theorem C1_counterexample :
    (vectorize_links envDemo s0 ["good", "bad"] (some ["tg", "tb"])).map
        (fun p => (p.1.img_links.length, p.1.img_vectors.length, p.1.img_titles.length)) =
      .ok (1, 1, 2) ∧ (2 : ℕ) ≠ 1 := by
  exact ⟨rfl, by decide⟩

/-- The state produced by the two-URL demo rebuild of claim C1. -/
def stC1 : VecState := ⟨model0, id, ["good"], [[1]], ["tg", "tb"]⟩

/-- Claim C1, witness for the amended theorem at a concrete rebuild
with one success out of two inputs. -/
theorem C1_witness :
    vectorize_links envDemo s0 ["good", "bad"] (some ["tg", "tb"]) =
      .ok (stC1, ["good"], [[1]]) ∧
    stC1.img_titles = ["tg", "tb"] ∧
    stC1.img_links.length = (["good", "bad"].filter (vectorize_ok envDemo s0)).length ∧
    stC1.img_vectors.length = stC1.img_links.length := by
  have h : vectorize_links envDemo s0 ["good", "bad"] (some ["tg", "tb"]) =
      .ok (stC1, ["good"], [[1]]) := rfl
  obtain ⟨h1, h2, h3, -⟩ := C1_rebuild_parallel envDemo s0 _ _ _ _ _ h
  exact ⟨h, h1, h2, h3⟩

/-- The five-location input of the spec scenario for claim C9;
positions 1 and 3 fail in `envDemo`. -/
def urls5 : List String := ["u0", "bad1", "u2", "bad3", "u4"]

/-- The state produced by the five-URL scenario rebuild of claim C9. -/
def stC9 : VecState := ⟨model0, id, ["u0", "u2", "u4"], [[1], [1], [1]], []⟩

/-- Claim C9, witness: the spec scenario — five inputs, positions 1
and 3 fail — yields the three surviving records in source order. -/
theorem C9_witness :
    vectorize_links envDemo s0 urls5 none =
      .ok (stC9, ["u0", "u2", "u4"], [[1], [1], [1]]) ∧
    stC9.img_links = ["u0", "u2", "u4"] ∧
    ["u0", "u2", "u4"] = urls5.filter (vectorize_ok envDemo s0) ∧
    List.Sublist ["u0", "u2", "u4"] urls5 := by
  have h : vectorize_links envDemo s0 urls5 none =
      .ok (stC9, ["u0", "u2", "u4"], [[1], [1], [1]]) := rfl
  obtain ⟨h1, h2, h3⟩ := C9_order_preserved envDemo s0 urls5 none stC9 _ _ h
  exact ⟨h, h1, h2, h3⟩

/-- The Keras defaults fixture used by the C10 witness. -/
def keras0 : Keras := ⟨model0, id⟩

/-- Claim C10, witness: a fresh construction has equally many stored
locations and vectors, the five-URL scenario state does as well, and
its first stored vector is the output of a successful `vectorize` of
its first stored location. -/
theorem C10_witness :
    s0.img_links.length = s0.img_vectors.length ∧
    stC9.img_links.length = stC9.img_vectors.length ∧
    vectorize envDemo s0 "u0" = .ok (some [1]) := by
  refine ⟨C10_stored_vectors_valid.1 keras0 none none s0 rfl, ?_⟩
  have h : vectorize_links envDemo s0 urls5 none =
      .ok (stC9, ["u0", "u2", "u4"], [[1], [1], [1]]) := rfl
  obtain ⟨h1, hpair⟩ := C10_stored_vectors_valid.2 envDemo s0 urls5 none stC9 _ _ h
  exact ⟨h1, hpair 0 (by decide) (by decide)⟩

theorem cosine_one_one : cosine_similarity [(1 : ℝ)] [1] = 1 := by
  norm_num [cosine_similarity, scipy_cosine, normL, dotL]

theorem cosine_one_negone : cosine_similarity [(1 : ℝ)] [-1] = -1 := by
  norm_num [cosine_similarity, scipy_cosine, normL, dotL]

theorem sims_demo_neg :
    sims_vct [[(1 : ℝ)], [-1]] ([[(1 : ℝ)], [-1]].getD 0 []) ((0 : ℕ) : ℤ) = [0, -1] := by
  norm_num [sims_vct, List.enum, List.enumFrom, cosine_one_negone]

theorem npArgmax_demo_neg : npArgmax [(0 : ℝ), -1] = 0 := by
  norm_num [npArgmax, argmaxPair]

/-- Claim C2, counterexample: in a two-record collection whose only
other candidate has cosine similarity `-1` to the reference, the
forced `0.0` at the reference position is the maximum, so the best
match **is** the reference index itself — the claim fails when every
other candidate scores negative. -/
theorem C2_counterexample :
    best_idx_of [[(1 : ℝ)], [-1]] 0 = 0 ∧ cosine_similarity [(1 : ℝ)] [-1] < 0 := by
  constructor
  · rw [best_idx_of, sims_demo_neg, npArgmax_demo_neg]
  · rw [cosine_one_negone]
    norm_num

/-- Claim C2, amended: the reference is never selected as its own best
match *provided* some other candidate has strictly positive cosine
similarity to the reference vector; with the self-score forced to
`0.0`, any strictly positive score beats the reference position (when
all other candidates score negative the argmax does land on the
reference, as the counterexample shows). -/
theorem C2_no_self_when_positive (vectors : List (List ℝ)) (r i : ℕ)
    (hr : r < vectors.length) (hi : i < vectors.length) (hir : i ≠ r)
    (hpos : 0 < cosine_similarity (vectors.getD r []) (vectors.getD i [])) :
    best_idx_of vectors r ≠ r := by
  intro hbad
  rw [best_idx_of] at hbad
  have hlen := sims_vct_length vectors (vectors.getD r []) (r : ℤ)
  have hne : sims_vct vectors (vectors.getD r []) (r : ℤ) ≠ [] := by
    intro h0
    rw [h0] at hlen
    simp at hlen
    omega
  obtain ⟨hj, hmax⟩ := npArgmax_spec _ hne
  have hri : (sims_vct vectors (vectors.getD r []) (r : ℤ)).get ⟨r, by omega⟩ = 0 := by
    rw [sims_vct_get vectors _ _ r hr]
    simp
  have hii : (sims_vct vectors (vectors.getD r []) (r : ℤ)).get ⟨i, by omega⟩ =
      cosine_similarity (vectors.getD r []) (vectors.getD i []) := by
    rw [sims_vct_get vectors _ _ i hi]
    rw [if_pos (by exact_mod_cast hir)]
    rw [List.getD_eq_getElem _ _ hi]
    simp
  have hle := hmax _ (List.get_mem _ i (by omega))
  have hfin : (⟨npArgmax (sims_vct vectors (vectors.getD r []) (r : ℤ)), hj⟩ :
      Fin (sims_vct vectors (vectors.getD r []) (r : ℤ)).length) = ⟨r, by omega⟩ :=
    Fin.mk_eq_mk.mpr hbad
  rw [hfin, hri, hii] at hle
  linarith

/-- Claim C2, witness for the amended theorem: with two identical unit
vectors the other candidate scores `1 > 0`, so the best match for
reference `0` is not `0`. -/
theorem C2_witness : best_idx_of [[(1 : ℝ)], [1]] 0 ≠ 0 := by
  refine C2_no_self_when_positive [[(1 : ℝ)], [1]] 0 1 (by norm_num) (by norm_num)
    (by norm_num) ?_
  have : ([[(1 : ℝ)], [1]].getD 0 []) = [(1 : ℝ)] := rfl
  rw [this, show ([[(1 : ℝ)], [1]].getD 1 []) = [(1 : ℝ)] from rfl, cosine_one_one]
  norm_num

/-- Two-record collection with identical unit vectors and titles. -/
def sA : VecState := ⟨model0, id, ["a0", "a1"], [[1], [1]], ["t", "t"]⟩

/-- Three-record collection whose best match for reference `0` is
position `2`. -/
def sB : VecState := ⟨model0, id, ["b0", "b1", "b2"], [[1], [-1], [1]], ["t", "t", "t"]⟩

theorem bestA : best_idx_of [[(1 : ℝ)], [1]] 0 = 1 := by
  rw [best_idx_of]
  norm_num [sims_vct, List.enum, List.enumFrom, cosine_one_one, npArgmax, argmaxPair]

theorem bestB : best_idx_of [[(1 : ℝ)], [-1], [1]] 0 = 2 := by
  rw [best_idx_of]
  norm_num [sims_vct, List.enum, List.enumFrom, cosine_one_one, cosine_one_negone,
    npArgmax, argmaxPair]

/-- Claim C7, amended: on a valid reference index of a parallel
collection, `image_similarity` completes without failure and the value
returned to the caller is *only* the title at the best-match index
when `len(img_titles) > best_idx` — `None` otherwise; the best-match
index itself is displayed but not returned. -/
theorem C7_returns_title_only (s : VecState) (idx : ℕ)
    (hlen : s.img_links.length = s.img_vectors.length)
    (hidx : idx < s.img_vectors.length) :
    (image_similarity s (idx : ℤ)).map sim_return =
      .ok (if best_idx_of s.img_vectors idx < s.img_titles.length
           then some (s.img_titles.getD (best_idx_of s.img_vectors idx) "")
           else none) := by
  obtain ⟨hb, heq⟩ := image_similarity_found s idx hlen hidx
  rw [heq]
  rfl

/-- Claim C7, counterexample: two collections whose best-match indices
for reference `0` differ (`1` versus `2`) produce identical return
values (`some "t"`), so the returned value cannot contain the
best-match index — the claimed `(bestIndex, title)` pair is not what
the operation returns. -/
theorem C7_counterexample :
    (image_similarity sA ((0 : ℕ) : ℤ)).map sim_return = .ok (some "t") ∧
    (image_similarity sB ((0 : ℕ) : ℤ)).map sim_return = .ok (some "t") ∧
    best_idx_of sA.img_vectors 0 = 1 ∧
    best_idx_of sB.img_vectors 0 = 2 ∧
    (1 : ℕ) ≠ 2 := by
  obtain ⟨-, heqA⟩ := image_similarity_found sA 0 rfl (by decide)
  obtain ⟨-, heqB⟩ := image_similarity_found sB 0 rfl (by decide)
  refine ⟨?_, ?_, bestA, bestB, by decide⟩
  · rw [heqA, show best_idx_of sA.img_vectors 0 = 1 from bestA]
    rfl
  · rw [heqB, show best_idx_of sB.img_vectors 0 = 2 from bestB]
    rfl

/-- Claim C7, witness for the amended theorem at the two-record
collection with reference index `0`. -/
theorem C7_witness :
    (image_similarity sA ((0 : ℕ) : ℤ)).map sim_return =
      .ok (if best_idx_of sA.img_vectors 0 < sA.img_titles.length
           then some (sA.img_titles.getD (best_idx_of sA.img_vectors 0) "")
           else none) :=
  C7_returns_title_only sA 0 rfl (by decide)
